import Mathlib

set_option maxHeartbeats 1000000

/-
Verification of the gesture-controlled photo-tree application.

The development shallowly embeds the core logic of the repository:
the gesture classifier (src/components/HandTrackerUI.tsx), the scene
state machine (src/App.tsx onGesture together with the selection
useEffect of the Experience component), the layout generators
(Experience treePositions, PhotoItem treePos / scatterPos), and the
per-frame animation blending (PhotoItem useFrame, modelling
THREE.Vector3.lerp as v += (target - v) * alpha per component).
-/

namespace Shendanshu

/-- 3D vector with real components, modelling THREE.Vector3 as used by the app. -/
@[ext] structure Vec3 where
  x : ℝ
  y : ℝ
  z : ℝ

/-- Display mode of the scene, from src/types.ts (enum AppState).
CLOSED is the assembled tree, SCATTERED the photo cloud, ZOOMED the
single-photo view. -/
inductive AppState where
  | CLOSED
  | SCATTERED
  | ZOOMED
deriving DecidableEq

/-- Gesture descriptor, from src/types.ts (interface HandGesture).
The optional rawLandmarks field is omitted (presentational only); the
source's rotation field is named rotationVec here. -/
structure HandGesture where
  isFist : Bool
  isOpen : Bool
  isGrabbing : Bool
  rotationVec : Vec3
  position : ℝ × ℝ

/-- Photo record, from src/types.ts (interface PhotoData). -/
structure PhotoData where
  id : String
  url : String

/-- The shared state owned by App: current display mode and the optional
selected photo id (src/App.tsx useState appState / selectedPhotoId). -/
abbrev SceneState := AppState × Option String

/-- A set of 21 normalized hand landmarks, each a 2D point (MediaPipe output). -/
abbrev LandmarkSet := Fin 21 → ℝ × ℝ

open Classical

/-- Euclidean distance between two 2D landmarks, from HandTrackerUI.tsx
(const dist = (p1, p2) => Math.sqrt((p1.x-p2.x)**2 + (p1.y-p2.y)**2)). -/
noncomputable def dist (p q : ℝ × ℝ) : ℝ :=
  Real.sqrt ((p.1 - q.1) ^ 2 + (p.2 - q.2) ^ 2)

/-- Mean fingertip-to-base distance over the four non-thumb fingers, as the
reduce over tips [8,12,16,20] and bases [5,9,13,17] in analyzeFist /
analyzeOpenHand (HandTrackerUI.tsx lines 104-116). -/
noncomputable def fingerSpanSrc (lm : LandmarkSet) : ℝ :=
  (0 + dist (lm 8) (lm 5) + dist (lm 12) (lm 9) + dist (lm 16) (lm 13)
    + dist (lm 20) (lm 17)) / 4

/-- Fist predicate from HandTrackerUI.tsx analyzeFist: avgDist < 0.12. -/
noncomputable def analyzeFist (lm : LandmarkSet) : Bool :=
  decide (fingerSpanSrc lm < 0.12)

/-- Open-hand predicate from HandTrackerUI.tsx analyzeOpenHand: avgDist > 0.25. -/
noncomputable def analyzeOpenHand (lm : LandmarkSet) : Bool :=
  decide (fingerSpanSrc lm > 0.25)

/-- Pinch predicate from HandTrackerUI.tsx analyzeGrabbing: thumb tip (4) to
index tip (8) distance < 0.05. -/
noncomputable def analyzeGrabbing (lm : LandmarkSet) : Bool :=
  decide (dist (lm 4) (lm 8) < 0.05)

/-- The gesture classifier: HandTrackerUI.tsx hands.onResults body (lines
40-57), mapping one landmark set to the descriptor passed to onGesture.
Position is the midpoint of wrist landmark 0 and middle-base landmark 9;
the rotation component is always zero in the source. -/
noncomputable def classify (lm : LandmarkSet) : HandGesture :=
  { isFist := analyzeFist lm
    isOpen := analyzeOpenHand lm
    isGrabbing := analyzeGrabbing lm
    rotationVec := ⟨0, 0, 0⟩
    position := (((lm 0).1 + (lm 9).1) / 2, ((lm 0).2 + (lm 9).2) / 2) }

/-- Reference finger span written exactly as the spec words it (claim C2):
mean of the four fingertip/base distances. -/
noncomputable def specFingerSpan (lm : LandmarkSet) : ℝ :=
  (dist (lm 8) (lm 5) + dist (lm 12) (lm 9) + dist (lm 16) (lm 13)
    + dist (lm 20) (lm 17)) / 4

/-- Reference classifier written from the spec's words (claim C2), used for
the refinement comparison against classify. -/
noncomputable def specClassify (lm : LandmarkSet) : HandGesture :=
  { isFist := decide (specFingerSpan lm < 0.12)
    isOpen := decide (specFingerSpan lm > 0.25)
    isGrabbing := decide (dist (lm 4) (lm 8) < 0.05)
    rotationVec := ⟨0, 0, 0⟩
    position := (((lm 0).1 + (lm 9).1) / 2, ((lm 0).2 + (lm 9).2) / 2) }

/-- One application of the gesture handler of src/App.tsx (onGesture,
lines 28-40): fist while not CLOSED assembles and clears the selection;
otherwise an open hand while CLOSED scatters. -/
def onGestureStep (g : HandGesture) (s : SceneState) : SceneState :=
  if g.isFist = true ∧ s.1 ≠ AppState.CLOSED then (AppState.CLOSED, none)
  else if g.isOpen = true ∧ s.1 = AppState.CLOSED then (AppState.SCATTERED, s.2)
  else s

/-- The photo-selection effect of the Experience component
(src/components/HandTrackerUI.tsx lines 279-289): a grab while SCATTERED
with no selection picks the first photo (if any) and zooms. -/
def selectionEffect (g : HandGesture) (photos : List PhotoData) (s : SceneState) : SceneState :=
  if g.isGrabbing = true ∧ s.1 = AppState.SCATTERED ∧ s.2 = none then
    match photos with
    | [] => s
    | p :: _ => (AppState.ZOOMED, some p.id)
  else s

/-- One full state-machine step for a latched descriptor: the App-level
gesture handler followed by the scene-level selection effect (which reacts
to the updated state). -/
def combinedStep (g : HandGesture) (photos : List PhotoData) (s : SceneState) : SceneState :=
  selectionEffect g photos (onGestureStep g s)

/-- The modal close button of src/App.tsx (lines 121-127): its onClick only
runs setSelectedPhotoId(null); the display mode is not touched. -/
def closeModalClick (s : SceneState) : SceneState := (s.1, none)

/-- Per-frame output of the landmark source fed through the classifier:
hands.onResults only produces a descriptor when a hand is present
(HandTrackerUI.tsx lines 34-72, the multiHandLandmarks guard). -/
noncomputable def gestureOfResults (r : Option LandmarkSet) : Option HandGesture :=
  r.map classify

/-- Frame-level processing of one landmark-source result: no hand means no
descriptor and hence no state update; a hand yields a descriptor that drives
one state-machine step. -/
noncomputable def processResults (r : Option LandmarkSet) (photos : List PhotoData)
    (s : SceneState) : SceneState :=
  match gestureOfResults r with
  | none => s
  | some g => combinedStep g photos s

/-- One component of THREE.Vector3.lerp: v += (target - v) * alpha, with no
clamping of alpha. -/
def lerp1 (a b t : ℝ) : ℝ := a + (b - a) * t

/-- THREE.Vector3.lerp applied componentwise. -/
def lerp3 (v w : Vec3) (t : ℝ) : Vec3 :=
  ⟨lerp1 v.x w.x t, lerp1 v.y w.y t, lerp1 v.z w.z t⟩

/-- The per-frame position update of a photo item, from PhotoItem's useFrame
(src/unnamed/part_000 line 47): meshRef.current.position.lerp(target, delta * 3). -/
def photoPosStep (pos target : Vec3) (delta : ℝ) : Vec3 :=
  lerp3 pos target (delta * 3)

/-- The per-frame position update of a decorative particle, from Experience's
useFrame (HandTrackerUI.tsx line 248): dummy.position.lerp(target, delta * 2.5). -/
def particlePosStep (pos target : Vec3) (delta : ℝ) : Vec3 :=
  lerp3 pos target (delta * 2.5)

/-- The scale target a photo item eases toward, read off PhotoItem's useFrame
branches: (0,0,0) when zoomed, (2.5,2.5,1) when scattered, (1.2,1.2,1) when
assembled. -/
def photoScaleTarget (zo sc : Bool) : Vec3 :=
  if zo = true then ⟨0, 0, 0⟩
  else if sc = true then ⟨2.5, 2.5, 1⟩
  else ⟨1.2, 1.2, 1⟩

/-- The isZoomed prop Experience passes to each PhotoItem:
selectedPhotoId === photo.id. -/
def photoItemIsZoomed (selId : Option String) (p : PhotoData) : Bool :=
  decide (selId = some p.id)

/-- The isScattered prop Experience passes to each PhotoItem:
appState !== AppState.CLOSED. -/
def photoItemIsScattered (m : AppState) : Bool :=
  decide (m ≠ AppState.CLOSED)

/-- Mutable per-item data of one PhotoItem together with its two targets,
which are useMemo constants in the source: treePos depends on (index, total)
and scatterPos is sampled once at creation (empty dependency array). -/
structure PhotoItemState where
  position : Vec3
  scale : Vec3
  rotationY : ℝ
  treePos : Vec3
  scatterPos : Vec3

/-- One execution of PhotoItem's useFrame callback (src/unnamed/part_000
lines 37-56).  lk abstracts THREE's lookAt orientation computation (applied
to the updated position and the camera position); the zoomed branch only
eases scale toward zero, the other branches lerp position toward the active
target and ease scale, spinning when assembled. -/
def photoItemFrame (lk : Vec3 → Vec3 → ℝ) (cam : Vec3) (sc zo : Bool)
    (delta : ℝ) (it : PhotoItemState) : PhotoItemState :=
  if zo = true then
    { it with scale := lerp3 it.scale ⟨0, 0, 0⟩ (delta * 5) }
  else if sc = true then
    { it with
        position := lerp3 it.position it.scatterPos (delta * 3)
        rotationY := lk (lerp3 it.position it.scatterPos (delta * 3)) cam
        scale := lerp3 it.scale ⟨2.5, 2.5, 1⟩ (delta * 2) }
  else
    { it with
        position := lerp3 it.position it.treePos (delta * 3)
        rotationY := it.rotationY + delta * 0.5
        scale := lerp3 it.scale ⟨1.2, 1.2, 1⟩ (delta * 2) }

/-- Scatter-target creation of a PhotoItem (src/unnamed/part_000 lines 31-35):
each coordinate is (random - 0.5) * 20, sampled once at creation.  The three
samples r1 r2 r3 stand for the Math.random() draws. -/
def mkScatterPos (r1 r2 r3 : ℝ) : Vec3 :=
  ⟨(r1 - 0.5) * 20, (r2 - 0.5) * 20, (r3 - 0.5) * 20⟩

/-- Scatter-target creation of a decorative particle (HandTrackerUI.tsx
lines 202-208): each coordinate is (random - 0.5) * 30. -/
def experienceScatterPos (r1 r2 r3 : ℝ) : Vec3 :=
  ⟨(r1 - 0.5) * 30, (r2 - 0.5) * 30, (r3 - 0.5) * 30⟩

/-- Mutable per-particle data of one decorative particle (the decomposed
instanced-mesh matrix: position, rotation about x, scale) together with its
two targets, which are useMemo arrays in the source: treePositions depends
on (count, height, baseRadius) and scatterPositions is sampled once at
creation of the array. -/
structure ParticleState where
  position : Vec3
  rotationX : ℝ
  scale : Vec3
  treePos : Vec3
  scatterPos : Vec3

/-- One execution of Experience's useFrame particle loop for particle j
(HandTrackerUI.tsx lines 241-257): the matrix is decomposed, the position
lerps toward currentTargets[j] (tree target when CLOSED, scatter target
otherwise) with factor delta*2.5, and when SCATTERED a sine bob is added to
y and the x rotation advances; the target arrays themselves are never
written. -/
noncomputable def particleFrame (mode : AppState) (time : ℝ) (j : ℕ)
    (delta : ℝ) (pt : ParticleState) : ParticleState :=
  if mode = AppState.CLOSED then
    { pt with position := lerp3 pt.position pt.treePos (delta * 2.5) }
  else if mode = AppState.SCATTERED then
    { pt with
        position :=
          ⟨(lerp3 pt.position pt.scatterPos (delta * 2.5)).x,
           (lerp3 pt.position pt.scatterPos (delta * 2.5)).y
             + Real.sin (time + (j : ℝ)) * 0.005,
           (lerp3 pt.position pt.scatterPos (delta * 2.5)).z⟩
        rotationX := pt.rotationX + delta * 0.2 }
  else
    { pt with position := lerp3 pt.position pt.scatterPos (delta * 2.5) }

/-- Assembled-formation target of decorative particle i, from Experience's
treePositions (HandTrackerUI.tsx lines 186-199): h = (i/count)*10,
radius = ((10-h)/10)*4, angle = i*0.4, position = (cos·r, h-5, sin·r);
count is 350 in the source. -/
noncomputable def treePositionSrc (i count : ℕ) : Vec3 :=
  ⟨Real.cos ((i : ℝ) * 0.4) * (((10 : ℝ) - (i : ℝ) / (count : ℝ) * 10) / 10 * 4),
   (i : ℝ) / (count : ℝ) * 10 - 10 / 2,
   Real.sin ((i : ℝ) * 0.4) * (((10 : ℝ) - (i : ℝ) / (count : ℝ) * 10) / 10 * 4)⟩

/-- Assembled-formation target of photo item index out of total, from
PhotoItem's treePos (src/unnamed/part_000 lines 19-28): h = (i/N)*8-4,
r = ((5-h)/10)*4, angle = (i/N)*pi*4. -/
noncomputable def photoTreePos (index total : ℕ) : Vec3 :=
  ⟨Real.cos ((index : ℝ) / (total : ℝ) * Real.pi * 4)
      * ((5 - ((index : ℝ) / (total : ℝ) * 8 - 4)) / 10 * 4),
   (index : ℝ) / (total : ℝ) * 8 - 4,
   Real.sin ((index : ℝ) / (total : ℝ) * Real.pi * 4)
      * ((5 - ((index : ℝ) / (total : ℝ) * 8 - 4)) / 10 * 4)⟩

/-- The conical-spiral reference layout written from the spec's words
(claim C6): height h = (i/N)*H - H/2, radius r = ((H/2 - h)/H)*R, azimuth
i*k, position (cos·r, h, sin·r). -/
noncomputable def specConicalTarget (H R k : ℝ) (i N : ℕ) : Vec3 :=
  ⟨Real.cos ((i : ℝ) * k) * ((H / 2 - ((i : ℝ) / (N : ℝ) * H - H / 2)) / H * R),
   (i : ℝ) / (N : ℝ) * H - H / 2,
   Real.sin ((i : ℝ) * k) * ((H / 2 - ((i : ℝ) / (N : ℝ) * H - H / 2)) / H * R)⟩

/-- A descriptor with only the fist flag set. -/
def gFistOnly : HandGesture := ⟨true, false, false, ⟨0, 0, 0⟩, (0, 0)⟩

/-- A (classifier-impossible) descriptor with both fist and open set. -/
def gFistOpen : HandGesture := ⟨true, true, false, ⟨0, 0, 0⟩, (0, 0)⟩

/-- A descriptor with only the grab flag set. -/
def gGrab : HandGesture := ⟨false, false, true, ⟨0, 0, 0⟩, (0, 0)⟩

/-- The all-zero landmark set. -/
def lmZero : LandmarkSet := fun _ => (0, 0)

/-- The id of a sample photo. -/
def pId : String := "p1"

/-- A sample photo record. -/
def pPhoto : PhotoData := ⟨pId, pId⟩

/-- A sample photo-item state. -/
def itSample : PhotoItemState :=
  { position := ⟨0, 0, 0⟩, scale := ⟨1, 1, 1⟩, rotationY := 0
    treePos := ⟨0, 0, 0⟩, scatterPos := ⟨3, 4, 5⟩ }

/-- A sample decorative-particle state. -/
def ptSample : ParticleState :=
  { position := ⟨0, 0, 0⟩, rotationX := 0, scale := ⟨1, 1, 1⟩
    treePos := ⟨0, 0, 0⟩, scatterPos := ⟨6, 7, 8⟩ }

/-! ## Claim theorems -/

/-- Claim C1 (amended).  Fist precedence holds from Scattered and Zoomed: any
descriptor with isFist=true moves the machine to CLOSED (Assembled) and
clears the selection, regardless of the other flags.  From CLOSED the fist
branch does not fire (its guard is appState !== CLOSED); the state is
unchanged unless isOpen is also set, in which case the else-if moves the
mode to SCATTERED, leaving the selection untouched. -/
theorem fist_precedence (g : HandGesture) (sel : Option String) (hf : g.isFist = true) :
    onGestureStep g (AppState.SCATTERED, sel) = (AppState.CLOSED, none) ∧
    onGestureStep g (AppState.ZOOMED, sel) = (AppState.CLOSED, none) ∧
    onGestureStep g (AppState.CLOSED, sel) =
      (if g.isOpen = true then (AppState.SCATTERED, sel) else (AppState.CLOSED, sel)) := by
  cases ho : g.isOpen <;> refine ⟨?_, ?_, ?_⟩ <;> simp [onGestureStep, hf, ho]

/-- Claim C1 witness: the amended statement at the fist-only descriptor. -/
theorem fist_precedence_witness :
    gFistOnly.isFist = true ∧
    (onGestureStep gFistOnly (AppState.SCATTERED, none) = (AppState.CLOSED, none) ∧
     onGestureStep gFistOnly (AppState.ZOOMED, none) = (AppState.CLOSED, none) ∧
     onGestureStep gFistOnly (AppState.CLOSED, none) =
       (if gFistOnly.isOpen = true then (AppState.SCATTERED, none)
        else (AppState.CLOSED, none))) :=
  ⟨rfl, fist_precedence gFistOnly none rfl⟩

/-- Claim C1 counterexample: from CLOSED, a descriptor with isFist=true and
isOpen=true yields SCATTERED, not CLOSED, so the fist transition does not
take precedence from every state. -/
theorem fist_precedence_counterexample :
    onGestureStep gFistOpen (AppState.CLOSED, none) = (AppState.SCATTERED, none) ∧
    (AppState.SCATTERED, (none : Option String)) ≠ (AppState.CLOSED, none) := by
  constructor
  · decide
  · decide

/-- Claim C2: the gesture classifier's output coincides with the reference
definition from the spec for every landmark set: mean fingertip/base
distance thresholds 0.12 and 0.25, pinch threshold 0.05 between landmarks 4
and 8, and position the midpoint of landmarks 0 and 9. -/
theorem classifier_matches_spec (lm : LandmarkSet) : classify lm = specClassify lm := by
  have hspan : fingerSpanSrc lm = specFingerSpan lm := by
    unfold fingerSpanSrc specFingerSpan; ring
  unfold classify specClassify analyzeFist analyzeOpenHand analyzeGrabbing
  rw [hspan]

/-- Claim C3 (amended).  Feeding the same descriptor repeatedly produces at
most one state transition, provided the descriptor does not carry both
isFist and isOpen: after one step the state is a fixed point of the step
under that descriptor.  No classifier-produced descriptor carries both
flags, since the span thresholds 0.12 and 0.25 are disjoint. -/
theorem gesture_idempotent (g : HandGesture) (photos : List PhotoData) (s : SceneState)
    (lm : LandmarkSet) (h : ¬(g.isFist = true ∧ g.isOpen = true)) :
    combinedStep g photos (combinedStep g photos s) = combinedStep g photos s ∧
    ¬((classify lm).isFist = true ∧ (classify lm).isOpen = true) := by
  constructor
  · obtain ⟨m, sel⟩ := s
    cases hf : g.isFist <;> cases ho : g.isOpen <;> cases hgr : g.isGrabbing <;>
      cases m <;> cases sel <;> cases photos <;>
        simp_all [combinedStep, onGestureStep, selectionEffect]
  · intro hlm
    obtain ⟨h1, h2⟩ := hlm
    simp only [classify] at h1 h2
    unfold analyzeFist at h1
    unfold analyzeOpenHand at h2
    have p1 := of_decide_eq_true h1
    have p2 := of_decide_eq_true h2
    linarith

/-- Claim C3 witness: the amended statement at the grab-only descriptor, one
photo, starting SCATTERED (the step fires once, to ZOOMED, then is stable). -/
theorem gesture_idempotent_witness :
    ¬(gGrab.isFist = true ∧ gGrab.isOpen = true) ∧
    (combinedStep gGrab [pPhoto] (combinedStep gGrab [pPhoto] (AppState.SCATTERED, none)) =
        combinedStep gGrab [pPhoto] (AppState.SCATTERED, none) ∧
      ¬((classify lmZero).isFist = true ∧ (classify lmZero).isOpen = true)) :=
  ⟨by decide, gesture_idempotent gGrab [pPhoto] (AppState.SCATTERED, none) lmZero (by decide)⟩

/-- Claim C3 counterexample: with both isFist and isOpen set, starting from
SCATTERED, the second application of the step changes the state again
(CLOSED back to SCATTERED), so the machine is not stable after one step. -/
theorem gesture_idempotent_counterexample :
    combinedStep gFistOpen [] (combinedStep gFistOpen [] (AppState.SCATTERED, none)) ≠
      combinedStep gFistOpen [] (AppState.SCATTERED, none) := by
  decide

/-- Claim C4 (amended).  A grab received while SCATTERED with no selection
and a NON-EMPTY photo list zooms: the selection effect sets the mode to
ZOOMED and the selection to the first photo's id (non-null), and under the
resulting state that photo's scale target is (0,0,0) while every other
photo keeps the scattered scale target (2.5,2.5,1). -/
theorem grab_zoom_selects (g : HandGesture) (p : PhotoData) (ps : List PhotoData)
    (q : PhotoData) (hg : g.isGrabbing = true) :
    selectionEffect g (p :: ps) (AppState.SCATTERED, none) = (AppState.ZOOMED, some p.id) ∧
    (AppState.ZOOMED, some p.id).2 ≠ (none : Option String) ∧
    photoScaleTarget (photoItemIsZoomed (some p.id) q) (photoItemIsScattered AppState.ZOOMED) =
      (if p.id = q.id then (⟨0, 0, 0⟩ : Vec3) else ⟨2.5, 2.5, 1⟩) := by
  refine ⟨?_, by simp, ?_⟩
  · simp [selectionEffect, hg]
  · by_cases hpq : p.id = q.id <;>
      simp [photoScaleTarget, photoItemIsZoomed, photoItemIsScattered, hpq]

/-- Claim C4 witness: the amended statement at the grab-only descriptor and a
one-photo list. -/
theorem grab_zoom_selects_witness :
    gGrab.isGrabbing = true ∧
    (selectionEffect gGrab [pPhoto] (AppState.SCATTERED, none) =
        (AppState.ZOOMED, some pPhoto.id) ∧
      (AppState.ZOOMED, some pPhoto.id).2 ≠ (none : Option String) ∧
      photoScaleTarget (photoItemIsZoomed (some pPhoto.id) pPhoto)
          (photoItemIsScattered AppState.ZOOMED) =
        (if pPhoto.id = pPhoto.id then (⟨0, 0, 0⟩ : Vec3) else ⟨2.5, 2.5, 1⟩)) :=
  ⟨rfl, grab_zoom_selects gGrab pPhoto [] pPhoto rfl⟩

/-- Claim C4 counterexample: with an empty photo list, a grab received while
SCATTERED with no selection does not move the mode to ZOOMED, so the claim
as stated (for every such descriptor) fails. -/
theorem grab_zoom_selects_counterexample :
    (selectionEffect gGrab [] (AppState.SCATTERED, none)).1 ≠ AppState.ZOOMED := by
  decide

/-- Claim C5 (amended).  The per-frame position update of a photo item is
position += (target - position) * (rate * delta) with NO clamping of the
blend factor (THREE.Vector3.lerp does not clamp); the per-axis distance to
the target does not increase provided rate * delta ≤ 2, which holds for
ordinary frame deltas but not for arbitrarily large ones. -/
theorem blend_step_no_overshoot (pos target : Vec3) (delta : ℝ)
    (h0 : 0 ≤ delta * 3) (h2 : delta * 3 ≤ 2) :
    photoPosStep pos target delta =
      ⟨pos.x + (target.x - pos.x) * (delta * 3),
       pos.y + (target.y - pos.y) * (delta * 3),
       pos.z + (target.z - pos.z) * (delta * 3)⟩ ∧
    |target.x - (photoPosStep pos target delta).x| ≤ |target.x - pos.x| ∧
    |target.y - (photoPosStep pos target delta).y| ≤ |target.y - pos.y| ∧
    |target.z - (photoPosStep pos target delta).z| ≤ |target.z - pos.z| := by
  have key : ∀ a b : ℝ, |b - lerp1 a b (delta * 3)| ≤ |b - a| := by
    intro a b
    have hrw : b - lerp1 a b (delta * 3) = (b - a) * (1 - delta * 3) := by
      unfold lerp1; ring
    rw [hrw, abs_mul]
    have h1 : |1 - delta * 3| ≤ 1 := by
      rw [abs_le]; constructor <;> linarith
    calc |b - a| * |1 - delta * 3| ≤ |b - a| * 1 :=
          mul_le_mul_of_nonneg_left h1 (abs_nonneg _)
      _ = |b - a| := mul_one _
  exact ⟨rfl, key pos.x target.x, key pos.y target.y, key pos.z target.z⟩

/-- Claim C5 witness: the amended statement at delta = 1/2 (blend factor 3/2). -/
theorem blend_step_witness :
    (0 ≤ (1 / 2 : ℝ) * 3) ∧ ((1 / 2 : ℝ) * 3 ≤ 2) ∧
    (photoPosStep ⟨0, 0, 0⟩ ⟨1, 2, 3⟩ (1 / 2) =
        ⟨0 + (1 - 0) * (1 / 2 * 3), 0 + (2 - 0) * (1 / 2 * 3), 0 + (3 - 0) * (1 / 2 * 3)⟩ ∧
      |(1 : ℝ) - (photoPosStep ⟨0, 0, 0⟩ ⟨1, 2, 3⟩ (1 / 2)).x| ≤ |(1 : ℝ) - 0| ∧
      |(2 : ℝ) - (photoPosStep ⟨0, 0, 0⟩ ⟨1, 2, 3⟩ (1 / 2)).y| ≤ |(2 : ℝ) - 0| ∧
      |(3 : ℝ) - (photoPosStep ⟨0, 0, 0⟩ ⟨1, 2, 3⟩ (1 / 2)).z| ≤ |(3 : ℝ) - 0|) :=
  ⟨by norm_num, by norm_num,
    blend_step_no_overshoot ⟨0, 0, 0⟩ ⟨1, 2, 3⟩ (1 / 2) (by norm_num) (by norm_num)⟩

/-- Claim C5 counterexample: at delta = 1 the photo blend factor is 3, the
update does not equal the clamped formula of the claim, and the per-axis
distance to the target increases (overshoot). -/
theorem blend_step_counterexample :
    (photoPosStep ⟨0, 0, 0⟩ ⟨1, 0, 0⟩ 1).x = 3 ∧
    (photoPosStep ⟨0, 0, 0⟩ ⟨1, 0, 0⟩ 1).x ≠ (0 : ℝ) + (1 - 0) * min 1 (3 * 1) ∧
    |(1 : ℝ) - (photoPosStep ⟨0, 0, 0⟩ ⟨1, 0, 0⟩ 1).x| > |(1 : ℝ) - 0| := by
  norm_num [photoPosStep, lerp3, lerp1]

/-- Claim C6 (amended).  The decorative-particle assembled targets match the
conical-spiral reference definition with tree height H=10, base radius R=4
and constant angular step k=0.4: treePositionSrc equals specConicalTarget
10 4 0.4 at every index and count.  (The photo items' targets do not match
the reference shape; see the counterexample.) -/
theorem tree_layout_matches_spec (i N : ℕ) :
    treePositionSrc i N = specConicalTarget 10 4 0.4 i N := by
  unfold treePositionSrc specConicalTarget
  simp only [Vec3.mk.injEq]
  refine ⟨?_, trivial, ?_⟩ <;> · congr 1; ring

/-- Claim C6 counterexample: no choice of configured constants H, R, k makes
the photo-item layout equal the conical-spiral reference definition (its
radius does not vanish at the apex and its angular step depends on the
total count). -/
theorem tree_layout_counterexample :
    ¬ ∃ H R k : ℝ, ∀ i N : ℕ, 0 < N → i < N →
      photoTreePos i N = specConicalTarget H R k i N := by
  rintro ⟨H, R, k, hall⟩
  have e01 : photoTreePos 0 1 = ⟨18 / 5, -4, 0⟩ := by
    unfold photoTreePos
    have h0 : ((0 : ℕ) : ℝ) / ((1 : ℕ) : ℝ) * Real.pi * 4 = 0 := by push_cast; ring
    rw [h0, Real.cos_zero, Real.sin_zero]
    simp only [Vec3.mk.injEq]
    refine ⟨?_, ?_, ?_⟩ <;> push_cast <;> norm_num
  have e12 : photoTreePos 1 2 = ⟨2, 0, 0⟩ := by
    unfold photoTreePos
    have h1 : ((1 : ℕ) : ℝ) / ((2 : ℕ) : ℝ) * Real.pi * 4 = 2 * Real.pi := by
      push_cast; ring
    rw [h1, Real.cos_two_pi, Real.sin_two_pi]
    simp only [Vec3.mk.injEq]
    refine ⟨?_, ?_, ?_⟩ <;> push_cast <;> norm_num
  have h01 := hall 0 1 (by norm_num) (by norm_num)
  have h12 := hall 1 2 (by norm_num) (by norm_num)
  rw [e01] at h01
  rw [e12] at h12
  unfold specConicalTarget at h01 h12
  rw [Vec3.mk.injEq] at h01 h12
  obtain ⟨hx01, hy01, -⟩ := h01
  obtain ⟨hx12, -, -⟩ := h12
  push_cast at hx01 hy01 hx12
  have hH : H = 8 := by
    norm_num at hy01
    linarith
  subst hH
  rw [zero_mul, Real.cos_zero, one_mul] at hx01
  norm_num at hx01
  rw [one_mul] at hx12
  have hR : R = 18 / 5 := by linarith
  subst hR
  norm_num at hx12
  have hc := Real.cos_le_one k
  nlinarith

/-- Claim C7 (amended).  Closing the zoomed viewer (the modal close button)
clears the selection but leaves the display mode unchanged: from ZOOMED the
state becomes (ZOOMED, none), not SCATTERED. -/
theorem close_modal_clears_selection (sel : Option String) :
    closeModalClick (AppState.ZOOMED, sel) = (AppState.ZOOMED, none) := rfl

/-- Claim C7 counterexample: the close action on a zoomed, selected state
does not produce the (SCATTERED, none) state the claim requires. -/
theorem close_modal_counterexample :
    closeModalClick (AppState.ZOOMED, some pId) ≠ (AppState.SCATTERED, none) := by
  decide

/-- Claim C8.  When the landmark source reports no hand, no descriptor is
produced and frame processing leaves the state untouched, for any number of
consecutive no-hand frames; in particular the mode stays CLOSED (Assembled)
across 10 such frames. -/
theorem no_hand_retains_state (photos : List PhotoData) (s : SceneState) (n : ℕ) :
    gestureOfResults none = none ∧
    (fun t => processResults none photos t)^[n] s = s ∧
    ((fun t => processResults none photos t)^[10]
        (AppState.CLOSED, (none : Option String))).1 = AppState.CLOSED := by
  have hiter : ∀ (m : ℕ) (t : SceneState),
      (fun t => processResults none photos t)^[m] t = t := by
    intro m
    induction m with
    | zero => intro t; rfl
    | succ k ih =>
        intro t
        rw [Function.iterate_succ_apply]
        exact ih t
  refine ⟨rfl, hiter n s, ?_⟩
  rw [hiter 10 (AppState.CLOSED, none)]

/-- Claim C9.  The scattered target of every item is fixed at creation from
three uniform samples into a symmetric cube (half-width 10 for photo items,
half-width 15 for decorative particles), and no per-frame update ever
changes it (nor the assembled target): neither PhotoItem's useFrame nor
Experience's particle loop writes the targets, so sampling a target after
any number of frames yields the creation value. -/
theorem scatter_target_fixed (r1 r2 r3 : ℝ) (h1 : 0 ≤ r1) (h2 : r1 ≤ 1)
    (h3 : 0 ≤ r2) (h4 : r2 ≤ 1) (h5 : 0 ≤ r3) (h6 : r3 ≤ 1)
    (lk : Vec3 → Vec3 → ℝ) (cam : Vec3) (sc zo : Bool) (delta : ℝ)
    (it : PhotoItemState) (mode : AppState) (time : ℝ) (j : ℕ)
    (pt : ParticleState) (n : ℕ) :
    (-10 ≤ (mkScatterPos r1 r2 r3).x ∧ (mkScatterPos r1 r2 r3).x ≤ 10) ∧
    (-10 ≤ (mkScatterPos r1 r2 r3).y ∧ (mkScatterPos r1 r2 r3).y ≤ 10) ∧
    (-10 ≤ (mkScatterPos r1 r2 r3).z ∧ (mkScatterPos r1 r2 r3).z ≤ 10) ∧
    (-15 ≤ (experienceScatterPos r1 r2 r3).x ∧ (experienceScatterPos r1 r2 r3).x ≤ 15) ∧
    (-15 ≤ (experienceScatterPos r1 r2 r3).y ∧ (experienceScatterPos r1 r2 r3).y ≤ 15) ∧
    (-15 ≤ (experienceScatterPos r1 r2 r3).z ∧ (experienceScatterPos r1 r2 r3).z ≤ 15) ∧
    ((fun t => photoItemFrame lk cam sc zo delta t)^[n] it).scatterPos = it.scatterPos ∧
    ((fun t => photoItemFrame lk cam sc zo delta t)^[n] it).treePos = it.treePos ∧
    ((fun t => particleFrame mode time j delta t)^[n] pt).scatterPos = pt.scatterPos ∧
    ((fun t => particleFrame mode time j delta t)^[n] pt).treePos = pt.treePos := by
  have step : ∀ t : PhotoItemState,
      (photoItemFrame lk cam sc zo delta t).scatterPos = t.scatterPos ∧
      (photoItemFrame lk cam sc zo delta t).treePos = t.treePos := by
    intro t
    unfold photoItemFrame
    split_ifs <;> exact ⟨rfl, rfl⟩
  have hiter : ∀ (m : ℕ),
      ((fun t => photoItemFrame lk cam sc zo delta t)^[m] it).scatterPos = it.scatterPos ∧
      ((fun t => photoItemFrame lk cam sc zo delta t)^[m] it).treePos = it.treePos := by
    intro m
    induction m with
    | zero => exact ⟨rfl, rfl⟩
    | succ k ih =>
        rw [Function.iterate_succ_apply']
        exact ⟨(step _).1.trans ih.1, (step _).2.trans ih.2⟩
  have pstep : ∀ t : ParticleState,
      (particleFrame mode time j delta t).scatterPos = t.scatterPos ∧
      (particleFrame mode time j delta t).treePos = t.treePos := by
    intro t
    unfold particleFrame
    split_ifs <;> exact ⟨rfl, rfl⟩
  have phiter : ∀ (m : ℕ),
      ((fun t => particleFrame mode time j delta t)^[m] pt).scatterPos = pt.scatterPos ∧
      ((fun t => particleFrame mode time j delta t)^[m] pt).treePos = pt.treePos := by
    intro m
    induction m with
    | zero => exact ⟨rfl, rfl⟩
    | succ k ih =>
        rw [Function.iterate_succ_apply']
        exact ⟨(pstep _).1.trans ih.1, (pstep _).2.trans ih.2⟩
  refine ⟨⟨?_, ?_⟩, ⟨?_, ?_⟩, ⟨?_, ?_⟩, ⟨?_, ?_⟩, ⟨?_, ?_⟩, ⟨?_, ?_⟩,
      (hiter n).1, (hiter n).2, (phiter n).1, (phiter n).2⟩ <;>
    simp only [mkScatterPos, experienceScatterPos] <;> nlinarith

/-- Claim C9 witness: the statement at samples 1/2 and three frames, for one
photo item in the scattered branch and one decorative particle while
SCATTERED. -/
theorem scatter_target_fixed_witness :
    (0 ≤ (1 / 2 : ℝ)) ∧ ((1 / 2 : ℝ) ≤ 1) ∧
    ((-10 ≤ (mkScatterPos (1 / 2) (1 / 2) (1 / 2)).x ∧
        (mkScatterPos (1 / 2) (1 / 2) (1 / 2)).x ≤ 10) ∧
      (-10 ≤ (mkScatterPos (1 / 2) (1 / 2) (1 / 2)).y ∧
        (mkScatterPos (1 / 2) (1 / 2) (1 / 2)).y ≤ 10) ∧
      (-10 ≤ (mkScatterPos (1 / 2) (1 / 2) (1 / 2)).z ∧
        (mkScatterPos (1 / 2) (1 / 2) (1 / 2)).z ≤ 10) ∧
      (-15 ≤ (experienceScatterPos (1 / 2) (1 / 2) (1 / 2)).x ∧
        (experienceScatterPos (1 / 2) (1 / 2) (1 / 2)).x ≤ 15) ∧
      (-15 ≤ (experienceScatterPos (1 / 2) (1 / 2) (1 / 2)).y ∧
        (experienceScatterPos (1 / 2) (1 / 2) (1 / 2)).y ≤ 15) ∧
      (-15 ≤ (experienceScatterPos (1 / 2) (1 / 2) (1 / 2)).z ∧
        (experienceScatterPos (1 / 2) (1 / 2) (1 / 2)).z ≤ 15) ∧
      ((fun t => photoItemFrame (fun _ _ => 0) ⟨0, 0, 0⟩ true false 1 t)^[3]
          itSample).scatterPos = itSample.scatterPos ∧
      ((fun t => photoItemFrame (fun _ _ => 0) ⟨0, 0, 0⟩ true false 1 t)^[3]
          itSample).treePos = itSample.treePos ∧
      ((fun t => particleFrame AppState.SCATTERED 0 0 1 t)^[3]
          ptSample).scatterPos = ptSample.scatterPos ∧
      ((fun t => particleFrame AppState.SCATTERED 0 0 1 t)^[3]
          ptSample).treePos = ptSample.treePos) :=
  ⟨by norm_num, by norm_num,
    scatter_target_fixed (1 / 2) (1 / 2) (1 / 2) (by norm_num) (by norm_num)
      (by norm_num) (by norm_num) (by norm_num) (by norm_num)
      (fun _ _ => 0) ⟨0, 0, 0⟩ true false 1 itSample
      AppState.SCATTERED 0 0 ptSample 3⟩

/-- Claim C10.  With an empty photo list, a grab received while SCATTERED
with no selection leaves the selection effect's state unchanged (mode stays
SCATTERED, selection stays null); and the full step can only ever produce
ZOOMED when it was already ZOOMED or at least one photo exists. -/
theorem empty_photos_no_zoom (g : HandGesture) (photos : List PhotoData) (s : SceneState)
    (hg : g.isGrabbing = true) :
    selectionEffect g [] (AppState.SCATTERED, none) = (AppState.SCATTERED, none) ∧
    ((combinedStep g photos s).1 = AppState.ZOOMED → s.1 = AppState.ZOOMED ∨ photos ≠ []) := by
  constructor
  · simp [selectionEffect, hg]
  · intro hz
    cases photos with
    | nil =>
        left
        have hsel : ∀ t : SceneState, selectionEffect g [] t = t := by
          intro t
          unfold selectionEffect
          split_ifs <;> rfl
        rw [combinedStep, hsel] at hz
        unfold onGestureStep at hz
        split_ifs at hz
        simp_all
    | cons p ps =>
        right
        simp

/-- Claim C10 witness: the statement at the grab-only descriptor, empty photo
list and scattered unselected state. -/
theorem empty_photos_no_zoom_witness :
    gGrab.isGrabbing = true ∧
    (selectionEffect gGrab [] (AppState.SCATTERED, none) = (AppState.SCATTERED, none) ∧
      ((combinedStep gGrab [] (AppState.SCATTERED, (none : Option String))).1 =
          AppState.ZOOMED →
        (AppState.SCATTERED, (none : Option String)).1 = AppState.ZOOMED ∨
          ([] : List PhotoData) ≠ [])) :=
  ⟨rfl, empty_photos_no_zoom gGrab [] (AppState.SCATTERED, none) rfl⟩

end Shendanshu
